import Mathlib

/-!
Shallow embedding of the session/token lifecycle coordinator from
market_price_edpgw_authentication.py: the WebSocket message handlers
(process_message, process_login_response, on_error, on_close), the login
frame builder (send_login_request), the token acquisition function
(get_sts_token) and the renewal loop body of the main program.

JSON values are modelled by an inductive type; Python dicts by association
lists in insertion order (CPython semantics: updating an existing key keeps
its position, adding a new key appends).  A dict subscript on a missing key
raises KeyError, modelled by an explicit error result.  HTTP traffic is
modelled by a script: a list of events (a response, or a network-level
exception) consumed one per request; get_sts_token additionally returns the
list of grant types of the requests it issued, so that retry counts can be
stated.
-/

namespace WsAuth

/-- JSON values as transported on the wire and held in Python dicts. -/
inductive Json where
  | null : Json
  | bool : Bool → Json
  | num : Int → Json
  | str : String → Json
  | arr : List Json → Json
  | obj : List (String × Json) → Json

/-- First value bound to a key in an association list (Python dict lookup). -/
def lookupKey : List (String × Json) → String → Option Json
  | [], _ => none
  | (k, v) :: rest, key => if k = key then some v else lookupKey rest key

/-- Subscript on a JSON object; none when the key is absent or the value is
not an object (Python raises KeyError resp. TypeError there, and every use
below maps none to an error result). -/
def Json.lookup : Json → String → Option Json
  | Json.obj fields, key => lookupKey fields key
  | _, _ => none

/-- Python dict assignment d[k] = v: replace the value of an existing key in
place, otherwise append the new pair. -/
def dictSet : List (String × Json) → String → Json → List (String × Json)
  | [], key, v => [(key, v)]
  | (k, w) :: rest, key, v =>
      if k = key then (key, v) :: rest else (k, w) :: dictSet rest key v

/-- Python equality test of a JSON value against a string literal: true
exactly for the equal string (a non-string value never equals a string). -/
def jsonEqStr : Json → String → Bool
  | Json.str t, s => t == s
  | _, _ => false

/-- The module-level configuration globals read by the frame builders
(defaults as in the source; the command line may override them). -/
structure Globals where
  app_id : String := "256"
  position : String := ""
  ric : String := "/TRI.N"
  service : String := "ELEKTRON_DD"

/-- The mutable module-level session state shared by the handlers and the
renewal loop: web_socket_open, logged_in, the current token triple and the
recorded original expiry. -/
structure ProgState where
  web_socket_open : Bool
  logged_in : Bool
  sts_token : String
  refresh_token : String
  expire_time : Nat
  original_expire_time : Nat

/-- Handler on_error: prints the error and changes no state. -/
def on_error (st : ProgState) : ProgState := st

/-- Handler on_close: sets web_socket_open to False; nothing else. -/
def on_close (st : ProgState) : ProgState := { st with web_socket_open := false }

/-- Python KeyError escaping a handler uncaught. -/
inductive PyExn where
  | keyError : String → PyExn

/-- Result of processing one inbound message: the state afterwards, the
frames sent on the connection during processing, and the exit code when
processing called sys.exit. -/
structure StepResult where
  state : ProgState
  sent : List Json
  exitCode : Option Nat

/-- The pong frame sent in reply to a ping. -/
def pong_json : Json := Json.obj [("Type", Json.str "Pong")]

/-- Frame built by send_market_price_request. -/
def send_market_price_request (g : Globals) (ric_name : String) : Json :=
  Json.obj [("ID", Json.num 2),
            ("Key", Json.obj [("Name", Json.str ric_name),
                              ("Service", Json.str g.service)])]

/-- Frame built by send_login_request: the dict literal with empty Elements
strings, then the three assignments into Elements, then, when
is_refresh_token holds, the assignment login_json of Refresh to False. -/
def send_login_request (g : Globals) (auth_token : String)
    (is_refresh_token : Bool) : Json :=
  let elements0 : List (String × Json) :=
    [("ApplicationId", Json.str ""), ("Position", Json.str ""),
     ("AuthenticationToken", Json.str "")]
  let elements1 := dictSet elements0 "ApplicationId" (Json.str g.app_id)
  let elements2 := dictSet elements1 "Position" (Json.str g.position)
  let elements3 := dictSet elements2 "AuthenticationToken" (Json.str auth_token)
  let top0 : List (String × Json) :=
    [("ID", Json.num 1), ("Domain", Json.str "Login"),
     ("Key", Json.obj [("NameType", Json.str "AuthnToken"),
                       ("Elements", Json.obj elements3)])]
  let top1 := if is_refresh_token then dictSet top0 "Refresh" (Json.bool false)
              else top0
  Json.obj top1

/-- process_login_response: reads State.Stream and State.Data with
short-circuit evaluation; on a rejected login prints and calls sys.exit(1)
leaving the state untouched; on success sets logged_in and sends the market
price request for the configured ric. -/
def process_login_response (g : Globals) (st : ProgState) (msg : Json) :
    Except PyExn StepResult :=
  match msg.lookup "State" with
  | none => Except.error (PyExn.keyError "State")
  | some stateObj =>
    match stateObj.lookup "Stream" with
    | none => Except.error (PyExn.keyError "Stream")
    | some streamVal =>
      if jsonEqStr streamVal "Open" = false then
        Except.ok { state := st, sent := [], exitCode := some 1 }
      else
        match stateObj.lookup "Data" with
        | none => Except.error (PyExn.keyError "Data")
        | some dataVal =>
          if jsonEqStr dataVal "Ok" = false then
            Except.ok { state := st, sent := [], exitCode := some 1 }
          else
            Except.ok { state := { st with logged_in := true },
                        sent := [send_market_price_request g g.ric],
                        exitCode := none }

/-- process_message: dispatch on the Type field; a Refresh in the Login
domain goes to process_login_response, a Ping is answered by one Pong, and
everything else is only printed. -/
def process_message (g : Globals) (st : ProgState) (msg : Json) :
    Except PyExn StepResult :=
  match msg.lookup "Type" with
  | none => Except.error (PyExn.keyError "Type")
  | some messageType =>
    if jsonEqStr messageType "Refresh" then
      match msg.lookup "Domain" with
      | some messageDomain =>
          if jsonEqStr messageDomain "Login" then
            process_login_response g st msg
          else Except.ok { state := st, sent := [], exitCode := none }
      | none => Except.ok { state := st, sent := [], exitCode := none }
    else if jsonEqStr messageType "Ping" then
      Except.ok { state := st, sent := [pong_json], exitCode := none }
    else
      Except.ok { state := st, sent := [], exitCode := none }

/-- Grant type actually carried by one HTTP request issued by
get_sts_token: the password grant, or the refresh-token grant. -/
inductive Grant where
  | passwordGrant : Grant
  | refreshGrant : Grant

/-- One HTTP response: status code, parsed JSON body (only read on 200) and
the optional Location header (only read on a redirect status). -/
structure Response where
  status : Nat
  body : List (String × Json)
  location : Option String

/-- One event of the HTTP script: a response, or a
requests.exceptions.RequestException raised during the post. -/
inductive HttpEvent where
  | resp : Response → HttpEvent
  | netError : HttpEvent

/-- Outcome of get_sts_token: the token triple on success; the triple
(None, None, None) on a handled failure; an uncaught KeyError when a dict
subscript on the response misses; or exhaustion of the finite script, an
artifact of modelling the unbounded retry recursion over a finite event
list. -/
inductive TokenResult where
  | ok : Json → Json → Json → TokenResult
  | failure : TokenResult
  | uncaughtKeyError : String → TokenResult
  | outOfScript : TokenResult

/-- Python truthiness of the current_refresh_token argument (None and the
empty string are falsy). -/
def truthy : Option String → Bool
  | none => false
  | some s => s ≠ ""

/-- Grant type get_sts_token puts in the request body, decided by the
truthiness of current_refresh_token. -/
def grantOf (current_refresh_token : Option String) : Grant :=
  if truthy current_refresh_token then Grant.refreshGrant else Grant.passwordGrant

/-- get_sts_token over an HTTP event script, also returning the grant types
of the requests issued in order.  Status dispatch in source order: 200 reads
the three body fields (first missing one raises KeyError); 301/302/307/308
reads the Location header (subscript: missing raises KeyError, present
recurses against the new URL with the same token); 400/401 with a truthy
refresh token retries once as get_sts_token(None), otherwise returns the
failure triple; 403/451 returns the failure triple at once; any other
status repeats the same request; a network exception returns the failure
triple. -/
def get_sts_token (current_refresh_token : Option String) :
    List HttpEvent → TokenResult × List Grant
  | [] => (TokenResult.outOfScript, [])
  | HttpEvent.netError :: _ =>
      (TokenResult.failure, [grantOf current_refresh_token])
  | HttpEvent.resp r :: rest =>
      let g := grantOf current_refresh_token
      if r.status = 200 then
        match lookupKey r.body "access_token" with
        | none => (TokenResult.uncaughtKeyError "access_token", [g])
        | some a =>
          match lookupKey r.body "refresh_token" with
          | none => (TokenResult.uncaughtKeyError "refresh_token", [g])
          | some rt =>
            match lookupKey r.body "expires_in" with
            | none => (TokenResult.uncaughtKeyError "expires_in", [g])
            | some e => (TokenResult.ok a rt e, [g])
      else if r.status = 301 ∨ r.status = 302 ∨ r.status = 307 ∨ r.status = 308 then
        match r.location with
        | some _ =>
            let res := get_sts_token current_refresh_token rest
            (res.1, g :: res.2)
        | none => (TokenResult.uncaughtKeyError "Location", [g])
      else if r.status = 400 ∨ r.status = 401 then
        if truthy current_refresh_token then
          let res := get_sts_token none rest
          (res.1, g :: res.2)
        else (TokenResult.failure, [g])
      else if r.status = 403 ∨ r.status = 451 then
        (TokenResult.failure, [g])
      else
        let res := get_sts_token current_refresh_token rest
        (res.1, g :: res.2)

/-- A token triple as unpacked by the main program after a successful
acquisition (expire_time already through int conversion). -/
structure Cred where
  access : String
  refresh : String
  expires : Nat

/-- The sleep duration of the renewal loop, int of float(expire_time) times
0.90: for the integer second counts involved, the double product rounds to
a value with the floor of nine tenths of expire_time, so the truncation is
the natural-number division by ten of nine times expire_time. -/
def renewal_wait (expire_time : Nat) : Nat := 9 * expire_time / 10

/-- A call of get_sts_token as made by the renewal loop, identified by the
argument it passes: the stored refresh token, or None (password path). -/
inductive AcqCall where
  | withRefreshToken : AcqCall
  | withPassword : AcqCall

/-- Outcome of one pass of the renewal loop body: state afterwards, the
sleep duration performed at the top of the pass, the get_sts_token calls
issued, the frames sent, and the exit code when the pass called
sys.exit. -/
structure IterResult where
  state : ProgState
  waited : Nat
  calls : List AcqCall
  sent : List Json
  exitCode : Option Nat

/-- Tail of the renewal loop body: when logged_in holds, send the renewal
login frame with the current sts_token and is_refresh_token True. -/
def renewal_tail (g : Globals) (st : ProgState) (waited : Nat)
    (calls : List AcqCall) : IterResult :=
  if st.logged_in then
    { state := st, waited := waited, calls := calls,
      sent := [send_login_request g st.sts_token true], exitCode := none }
  else
    { state := st, waited := waited, calls := calls, sent := [],
      exitCode := none }

/-- One pass of the renewal while-loop, parametrized by the results the two
potential get_sts_token calls would return (None modelled as Option.none):
sleep for renewal_wait of the current expire_time, acquire with the stored
refresh token and exit 1 on failure, then if the new expiry differs from
original_expire_time re-acquire once with the password (exit 1 on failure)
and record the re-acquired expiry as original_expire_time, finally send the
renewal login frame when logged in. -/
def renewal_iteration (g : Globals) (st : ProgState)
    (refreshResult : Option Cred) (pwResult : Option Cred) : IterResult :=
  let waited := renewal_wait st.expire_time
  match refreshResult with
  | none =>
      { state := st, waited := waited, calls := [AcqCall.withRefreshToken],
        sent := [], exitCode := some 1 }
  | some c =>
    let st1 : ProgState :=
      { st with sts_token := c.access, refresh_token := c.refresh,
                expire_time := c.expires }
    if c.expires ≠ st1.original_expire_time then
      match pwResult with
      | none =>
          { state := st1, waited := waited,
            calls := [AcqCall.withRefreshToken, AcqCall.withPassword],
            sent := [], exitCode := some 1 }
      | some c2 =>
        let st2 : ProgState :=
          { st1 with sts_token := c2.access, refresh_token := c2.refresh,
                     expire_time := c2.expires,
                     original_expire_time := c2.expires }
        renewal_tail g st2 waited [AcqCall.withRefreshToken, AcqCall.withPassword]
    else
      renewal_tail g st1 waited [AcqCall.withRefreshToken]

/-- A concrete session state with an open, logged-in session. -/
def exState : ProgState :=
  { web_socket_open := true, logged_in := true, sts_token := "A1",
    refresh_token := "R1", expire_time := 600, original_expire_time := 600 }

/-- The concrete session state before any successful login. -/
def loggedOutState : ProgState := { exState with logged_in := false }

/-- A concrete inbound ping frame. -/
def pingMsg : Json := Json.obj [("Type", Json.str "Ping")]

/-- A concrete rejected login refresh: stream state Closed, data state
Suspect. -/
def rejectedLoginMsg : Json :=
  Json.obj [("ID", Json.num 1), ("Type", Json.str "Refresh"),
            ("Domain", Json.str "Login"),
            ("State", Json.obj [("Stream", Json.str "Closed"),
                                ("Data", Json.str "Suspect")])]

/-- A concrete 403 response from the token endpoint. -/
def forbiddenResp : Response := { status := 403, body := [], location := none }

/-- A concrete 401 response from the token endpoint. -/
def rejectedResp : Response := { status := 401, body := [], location := none }

/-- A concrete 301 response carrying no Location header. -/
def redirectNoLocation : Response :=
  { status := 301, body := [], location := none }

/-- A concrete 200 response whose JSON body misses access_token. -/
def okMissingAccessToken : Response :=
  { status := 200,
    body := [("refresh_token", Json.str "R1"), ("expires_in", Json.num 600)],
    location := none }

/-- A concrete 200 response carrying the full token triple. -/
def okFullResp : Response :=
  { status := 200,
    body := [("access_token", Json.str "A1"), ("refresh_token", Json.str "R1"),
             ("expires_in", Json.num 600)],
    location := none }

/-- A concrete renewed credential whose expiry differs from the stored
original expiry of exState. -/
def credChanged : Cred := { access := "A2", refresh := "R2", expires := 450 }

/-- The concrete credential obtained by the password re-acquisition after
the policy change. -/
def credRebased : Cred := { access := "A3", refresh := "R3", expires := 450 }

-- Helper lemmas -------------------------------------------------------------

theorem jsonEqStr_eq_false_of_ne :
    ∀ {v : Json} {s : String}, v ≠ Json.str s → jsonEqStr v s = false
  | Json.null, _, _ => rfl
  | Json.bool _, _, _ => rfl
  | Json.num _, _, _ => rfl
  | Json.arr _, _, _ => rfl
  | Json.obj _, _, _ => rfl
  | Json.str t, s, h => by
      simp only [jsonEqStr, beq_eq_false_iff_ne, ne_eq]
      intro he
      exact h (by rw [he])

theorem renewal_tail_state (g : Globals) (st : ProgState) (w : Nat)
    (cs : List AcqCall) : (renewal_tail g st w cs).state = st := by
  unfold renewal_tail; split <;> rfl

theorem renewal_tail_waited (g : Globals) (st : ProgState) (w : Nat)
    (cs : List AcqCall) : (renewal_tail g st w cs).waited = w := by
  unfold renewal_tail; split <;> rfl

theorem renewal_tail_calls (g : Globals) (st : ProgState) (w : Nat)
    (cs : List AcqCall) : (renewal_tail g st w cs).calls = cs := by
  unfold renewal_tail; split <;> rfl

theorem renewal_tail_exitCode (g : Globals) (st : ProgState) (w : Nat)
    (cs : List AcqCall) : (renewal_tail g st w cs).exitCode = none := by
  unfold renewal_tail; split <;> rfl

theorem renewal_iteration_waited (g : Globals) (st : ProgState)
    (r p : Option Cred) :
    (renewal_iteration g st r p).waited = renewal_wait st.expire_time := by
  unfold renewal_iteration
  cases r with
  | none => rfl
  | some c =>
    dsimp only
    split
    · cases p with
      | none => rfl
      | some c2 => exact renewal_tail_waited ..
    · exact renewal_tail_waited ..

theorem renewal_iteration_policy_change (g : Globals) (st : ProgState)
    (c c2 : Cred) (h : c.expires ≠ st.original_expire_time) :
    renewal_iteration g st (some c) (some c2) =
      renewal_tail g
        { st with sts_token := c2.access, refresh_token := c2.refresh,
                  expire_time := c2.expires, original_expire_time := c2.expires }
        (renewal_wait st.expire_time)
        [AcqCall.withRefreshToken, AcqCall.withPassword] := by
  unfold renewal_iteration
  dsimp only
  rw [if_pos h]

-- Claim theorems ------------------------------------------------------------

/-- C1, counterexample: the claim that the close handler and the error
handler each reset logged_in to false fails at a concrete logged-in state:
after on_close and after on_error the flag is still true. -/
theorem on_close_on_error_keep_logged_in_counterexample :
    (on_close exState).logged_in ≠ false ∧ (on_error exState).logged_in ≠ false := by
  constructor <;> decide

/-- C1, amended: the close handler only resets web_socket_open to false and
leaves logged_in unchanged, and the error handler only prints, changing no
state at all; neither handler resets logged_in. -/
theorem on_close_on_error_state_effect (st : ProgState) :
    (on_close st).logged_in = st.logged_in ∧
    (on_close st).web_socket_open = false ∧
    on_error st = st :=
  ⟨rfl, rfl, rfl⟩

/-- C9: the login frame built by send_login_request carries
Key.Elements.AuthenticationToken equal to the credential access token, it
contains Refresh with value false exactly when the renewal flag is set, and
it omits Refresh on the initial login. -/
theorem login_frame_token_and_refresh (g : Globals) (t : String) (b : Bool) :
    ((send_login_request g t b).lookup "Key").bind
        (fun k => (k.lookup "Elements").bind
          (fun e => e.lookup "AuthenticationToken")) = some (Json.str t) ∧
    (send_login_request g t true).lookup "Refresh" = some (Json.bool false) ∧
    (send_login_request g t false).lookup "Refresh" = none := by
  refine ⟨?_, ?_, ?_⟩ <;> cases b <;>
    simp [send_login_request, dictSet, Json.lookup, lookupKey]

/-- C10: an inbound message whose Type is Ping yields exactly one Pong
frame and leaves the whole session state unchanged, logged in or not. -/
theorem ping_single_pong_no_state_change (g : Globals) (st : ProgState)
    (msg : Json) (h : msg.lookup "Type" = some (Json.str "Ping")) :
    process_message g st msg
      = Except.ok { state := st, sent := [pong_json], exitCode := none } := by
  unfold process_message
  rw [h]
  simp [jsonEqStr]

/-- C10 witness at a concrete ping frame and the concrete logged-in
state. -/
theorem ping_single_pong_no_state_change_witness :
    pingMsg.lookup "Type" = some (Json.str "Ping") ∧
    process_message {} exState pingMsg
      = Except.ok { state := exState, sent := [pong_json], exitCode := none } :=
  ⟨rfl, ping_single_pong_no_state_change {} exState pingMsg rfl⟩

/-- C8: a login refresh whose stream state is not Open or whose data state
is not Ok makes processing call sys.exit(1) with the state untouched (so
logged_in keeps its prior value, false before any successful login) and
without sending any frame, in particular no subscription request. -/
theorem login_rejection_exits_without_login (g : Globals) (st : ProgState)
    (msg stateObj streamVal dataVal : Json)
    (hlog : st.logged_in = false)
    (hT : msg.lookup "Type" = some (Json.str "Refresh"))
    (hD : msg.lookup "Domain" = some (Json.str "Login"))
    (hS : msg.lookup "State" = some stateObj)
    (hStream : stateObj.lookup "Stream" = some streamVal)
    (hData : stateObj.lookup "Data" = some dataVal)
    (hrej : streamVal ≠ Json.str "Open" ∨ dataVal ≠ Json.str "Ok") :
    process_message g st msg
      = Except.ok { state := st, sent := [], exitCode := some 1 } := by
  unfold process_message
  rw [hT]
  simp only [jsonEqStr, BEq.beq, String.reduceEq, decide_True, if_true]
  rw [hD]
  simp only [jsonEqStr, BEq.beq, String.reduceEq, decide_True, if_true]
  unfold process_login_response
  rw [hS]
  dsimp only
  rw [hStream]
  dsimp only
  by_cases hso : jsonEqStr streamVal "Open" = false
  · rw [if_pos hso]
  · rw [if_neg hso, hData]
    dsimp only
    rcases hrej with h | h
    · exact absurd (jsonEqStr_eq_false_of_ne h) hso
    · rw [if_pos (jsonEqStr_eq_false_of_ne h)]

/-- C8 witness at a concrete rejected login refresh and the concrete
logged-out state. -/
theorem login_rejection_exits_without_login_witness :
    loggedOutState.logged_in = false ∧
    (Json.str "Closed" ≠ Json.str "Open" ∨ Json.str "Suspect" ≠ Json.str "Ok") ∧
    process_message {} loggedOutState rejectedLoginMsg
      = Except.ok { state := loggedOutState, sent := [], exitCode := some 1 } :=
  ⟨rfl, Or.inl (by simp),
   login_rejection_exits_without_login {} loggedOutState rejectedLoginMsg
     (Json.obj [("Stream", Json.str "Closed"), ("Data", Json.str "Suspect")])
     (Json.str "Closed") (Json.str "Suspect")
     rfl rfl rfl rfl rfl rfl (Or.inl (by simp))⟩

/-- C4: a get_sts_token call with a truthy refresh token that receives 400
or 401 retries exactly once with the password grant (it recurses with the
token absent, so the second request carries the password grant), and when
the password-grant request itself receives 400 or 401 the call returns the
failure triple after exactly those two requests, with no further retry. -/
theorem refresh_rejected_retries_password_once (tok : String) (htok : tok ≠ "")
    (r1 r2 : Response) (rest : List HttpEvent)
    (h1 : r1.status = 400 ∨ r1.status = 401)
    (h2 : r2.status = 400 ∨ r2.status = 401) :
    get_sts_token (some tok) (HttpEvent.resp r1 :: rest)
      = ((get_sts_token none rest).1,
         Grant.refreshGrant :: (get_sts_token none rest).2) ∧
    get_sts_token (some tok) (HttpEvent.resp r1 :: HttpEvent.resp r2 :: rest)
      = (TokenResult.failure, [Grant.refreshGrant, Grant.passwordGrant]) := by
  have ht : truthy (some tok) = true := by simp [truthy, htok]
  constructor
  · rcases h1 with h | h <;> simp [get_sts_token, h, grantOf, ht]
  · rcases h1 with h | h <;> rcases h2 with h2' | h2' <;>
      simp [get_sts_token, h, h2', grantOf, ht, truthy, htok]

/-- C4 witness: two consecutive concrete 401 responses against a concrete
refresh token. -/
theorem refresh_rejected_retries_password_once_witness :
    ("R_old" : String) ≠ "" ∧
    (get_sts_token (some "R_old") [HttpEvent.resp rejectedResp]
       = ((get_sts_token none []).1,
          Grant.refreshGrant :: (get_sts_token none []).2) ∧
     get_sts_token (some "R_old")
         [HttpEvent.resp rejectedResp, HttpEvent.resp rejectedResp]
       = (TokenResult.failure, [Grant.refreshGrant, Grant.passwordGrant])) :=
  ⟨by decide,
   refresh_rejected_retries_password_once "R_old" (by decide)
     rejectedResp rejectedResp [] (Or.inr rfl) (Or.inr rfl)⟩

/-- C5: a get_sts_token call that receives 403 or 451 returns the failure
triple at once, having issued exactly one request, whatever events would
follow in the script. -/
theorem forbidden_fails_without_retry (tok : Option String) (r : Response)
    (rest : List HttpEvent) (h : r.status = 403 ∨ r.status = 451) :
    get_sts_token tok (HttpEvent.resp r :: rest)
      = (TokenResult.failure, [grantOf tok]) := by
  rcases h with h | h <;> simp [get_sts_token, h]

/-- C5 witness at a concrete 403 response on the password path. -/
theorem forbidden_fails_without_retry_witness :
    (forbiddenResp.status = 403 ∨ forbiddenResp.status = 451) ∧
    get_sts_token none [HttpEvent.resp forbiddenResp, HttpEvent.netError]
      = (TokenResult.failure, [grantOf none]) :=
  ⟨Or.inl rfl,
   forbidden_fails_without_retry none forbiddenResp [HttpEvent.netError]
     (Or.inl rfl)⟩

/-- C6: at the failing input, a 301 response with no Location header, the
code raises an uncaught KeyError from the header subscript instead of
returning the failure triple; the fallback return after the dead None check
is unreachable. -/
theorem redirect_without_location_raises_key_error :
    get_sts_token none [HttpEvent.resp redirectNoLocation]
      = (TokenResult.uncaughtKeyError "Location", [Grant.passwordGrant]) := rfl

/-- C7, counterexample: a 200 response whose body misses access_token makes
get_sts_token raise an uncaught KeyError from the body subscript, which is
not the handled failure triple. -/
theorem ok_missing_field_raises_counterexample :
    (get_sts_token none [HttpEvent.resp okMissingAccessToken]).1
      = TokenResult.uncaughtKeyError "access_token" ∧
    TokenResult.uncaughtKeyError "access_token" ≠ TokenResult.failure :=
  ⟨rfl, fun h => nomatch h⟩

/-- C7, amended: on a 200 response whose body carries all of access_token,
refresh_token and expires_in, get_sts_token returns exactly those three
values after one request; when one of the fields is missing it raises an
uncaught KeyError rather than returning a typed failure. -/
theorem ok_with_all_fields_returns_triple (tok : Option String) (r : Response)
    (rest : List HttpEvent) (a rt e : Json)
    (h200 : r.status = 200)
    (ha : lookupKey r.body "access_token" = some a)
    (hr : lookupKey r.body "refresh_token" = some rt)
    (he : lookupKey r.body "expires_in" = some e) :
    get_sts_token tok (HttpEvent.resp r :: rest)
      = (TokenResult.ok a rt e, [grantOf tok]) := by
  simp [get_sts_token, h200, ha, hr, he]

/-- C7 witness at a concrete complete 200 response. -/
theorem ok_with_all_fields_returns_triple_witness :
    okFullResp.status = 200 ∧
    lookupKey okFullResp.body "access_token" = some (Json.str "A1") ∧
    lookupKey okFullResp.body "refresh_token" = some (Json.str "R1") ∧
    lookupKey okFullResp.body "expires_in" = some (Json.num 600) ∧
    get_sts_token none [HttpEvent.resp okFullResp]
      = (TokenResult.ok (Json.str "A1") (Json.str "R1") (Json.num 600),
         [grantOf none]) :=
  ⟨rfl, rfl, rfl, rfl,
   ok_with_all_fields_returns_triple none okFullResp [] (Json.str "A1")
     (Json.str "R1") (Json.num 600) rfl rfl rfl rfl⟩

/-- C2, counterexample: the claim that the wait equals 0.9 times the
latest expires_in fails at expiry 601 seconds, where the loop sleeps
int(601 times 0.9) = 540 seconds, not 540.9 seconds. -/
theorem renewal_wait_not_exact_counterexample :
    ((renewal_wait 601 : Nat) : ℚ) ≠ 9 / 10 * 601 := by
  norm_num [renewal_wait]

/-- C2, amended: every pass of the renewal loop sleeps the integer
truncation of 0.9 times the latest expires_in, recomputed each cycle; in
particular the pass following a policy-change re-acquisition sleeps the
truncation of 0.9 times the re-acquired credential's expires_in, not any
quantity derived from the original session expiry. -/
theorem renewal_wait_floor_of_latest_expiry (g : Globals) (st : ProgState)
    (c c2 : Cred) (r2 p2 : Option Cred)
    (h : c.expires ≠ st.original_expire_time) :
    (renewal_iteration g st (some c) (some c2)).waited
      = 9 * st.expire_time / 10 ∧
    (renewal_iteration g (renewal_iteration g st (some c) (some c2)).state
        r2 p2).waited
      = 9 * c2.expires / 10 := by
  constructor
  · rw [renewal_iteration_waited]; rfl
  · rw [renewal_iteration_waited, renewal_iteration_policy_change g st c c2 h,
        renewal_tail_state]
    rfl

/-- C2 witness: the concrete session whose expiry policy changed from 600
to 450 seconds. -/
theorem renewal_wait_floor_of_latest_expiry_witness :
    credChanged.expires ≠ exState.original_expire_time ∧
    ((renewal_iteration {} exState (some credChanged) (some credRebased)).waited
       = 9 * exState.expire_time / 10 ∧
     (renewal_iteration {}
         (renewal_iteration {} exState (some credChanged)
           (some credRebased)).state none none).waited
       = 9 * credRebased.expires / 10) :=
  ⟨by decide,
   renewal_wait_floor_of_latest_expiry {} exState credChanged credRebased
     none none (by decide)⟩

/-- C3: when the renewed credential's expires_in differs from the stored
original_expire_time, the loop body issues exactly one further
get_sts_token call with the token argument absent (password grant), records
the re-acquired credential's expires_in as original_expire_time, continues
with its refresh token, and does not exit. -/
theorem policy_change_single_password_reacquisition (g : Globals)
    (st : ProgState) (c c2 : Cred)
    (h : c.expires ≠ st.original_expire_time) :
    (renewal_iteration g st (some c) (some c2)).calls
      = [AcqCall.withRefreshToken, AcqCall.withPassword] ∧
    (renewal_iteration g st (some c) (some c2)).state.original_expire_time
      = c2.expires ∧
    (renewal_iteration g st (some c) (some c2)).state.refresh_token
      = c2.refresh ∧
    (renewal_iteration g st (some c) (some c2)).exitCode = none := by
  rw [renewal_iteration_policy_change g st c c2 h]
  refine ⟨renewal_tail_calls .., ?_, ?_, renewal_tail_exitCode ..⟩ <;>
    rw [renewal_tail_state]

/-- C3 witness at the concrete policy change from 600 to 450 seconds. -/
theorem policy_change_single_password_reacquisition_witness :
    credChanged.expires ≠ exState.original_expire_time ∧
    ((renewal_iteration {} exState (some credChanged) (some credRebased)).calls
       = [AcqCall.withRefreshToken, AcqCall.withPassword] ∧
     (renewal_iteration {} exState (some credChanged)
         (some credRebased)).state.original_expire_time = credRebased.expires ∧
     (renewal_iteration {} exState (some credChanged)
         (some credRebased)).state.refresh_token = credRebased.refresh ∧
     (renewal_iteration {} exState (some credChanged)
         (some credRebased)).exitCode = none) :=
  ⟨by decide,
   policy_change_single_password_reacquisition {} exState credChanged
     credRebased (by decide)⟩

end WsAuth
